import Mathlib

/-!
Verification of the retirement-calculator core (`proto1.py`).

The core consists of:
  * a synthetic mortality generator `_generate_synthetic_mortality`,
  * a life-annuity present-value computation `calculate_life_annuity_factor`,
  * a projection engine `run_simulation`.

Numbers are modelled as rationals (`ℚ`); the synthetic generator, whose
formula uses the real exponential, is modelled over `ℝ`.  A mortality table
is a partial map from integer ages to stored values; a stored value is
either a rational or a NaN marker (the source tables may carry NaN cells,
and `calculate_life_annuity_factor` clamps them).  The division by
`(1+investment_return)^years_to_go - 1` in the remediation step can divide
by zero in the source (a Python `ZeroDivisionError`); the embedding makes
that path explicit with an `exception` outcome.
-/


inductive Gender where
  | Male : Gender
  | Female : Gender
deriving DecidableEq, Repr

/-- A value stored in a mortality table: a rational `qx`, or NaN. -/
inductive QVal where
  | nan : QVal
  | val : ℚ → QVal
deriving DecidableEq, Repr

/-- A mortality table: partial map from integer age to a stored value;
`none` means the age is absent from the table. -/
def MortTable : Type := ℤ → Option QVal

/-- The table with no entries at all. -/
def emptyTable : MortTable := fun _ => none

/-- `table.get(current_age, 1.0)` — dictionary lookup with default `1.0`. -/
def table_get (table : MortTable) (age : ℤ) : QVal :=
  (table age).getD (QVal.val 1)

/-- `if pd.isna(q_x) or q_x < 0: q_x = 1.0` — the defensive clamp applied
to the looked-up value. -/
def sanitize_qx : QVal → ℚ
  | QVal.nan => 1
  | QVal.val q => if q < 0 then 1 else q

/-- The body of the valuation loop of `calculate_life_annuity_factor`:
`fuel` counts the remaining iterations of `range(0, 115 - retirement_age)`,
`t` is the current year offset, `prob_survival` and `total_pv` the running
state.  The `break` on `prob_survival < 0.0001` is checked after the state
update, exactly as in the source. -/
def annuity_go (table : MortTable) (retirement_age : ℤ) (discount_rate : ℚ) :
    Nat → Nat → ℚ → ℚ → ℚ
  | 0, _, _, total_pv => total_pv
  | fuel + 1, t, prob_survival, total_pv =>
    let v : ℚ := 1 / (1 + discount_rate) ^ t
    let total_pv' := total_pv + prob_survival * v
    let q_x := sanitize_qx (table_get table (retirement_age + Int.ofNat t))
    let prob_survival' := prob_survival * (1 - q_x)
    if prob_survival' < 1 / 10000 then total_pv'
    else annuity_go table retirement_age discount_rate fuel (t + 1) prob_survival' total_pv'

/-- `calculate_life_annuity_factor(retirement_age, gender, discount_rate,
mortality_tables)` from the source: selects the table by gender and runs
the valuation loop `for t in range(0, 115 - retirement_age)` starting from
`total_pv = 0.0`, `prob_survival = 1.0`. -/
def calculate_life_annuity_factor (retirement_age : ℤ) (gender : Gender)
    (discount_rate : ℚ) (mortality_tables : MortTable × MortTable) : ℚ :=
  let table := match gender with
    | Gender.Male => mortality_tables.1
    | Gender.Female => mortality_tables.2
  annuity_go table retirement_age discount_rate (115 - retirement_age).toNat 0 1 0

/-- The scalar parameters of one valuation request (the arguments of
`run_simulation` other than the tables). -/
structure PlanInputs where
  current_age : ℤ
  retire_age : ℤ
  current_salary : ℚ
  salary_growth : ℚ
  investment_return : ℚ
  inflation : ℚ
  employer_contrib_pct : ℚ
  personal_contrib_pct : ℚ
  target_monthly_income_today_value : ℚ
  gender : Gender
deriving DecidableEq, Repr

/-- `years_to_go = retire_age - current_age`. -/
def years_to_go_of (p : PlanInputs) : ℤ :=
  p.retire_age - p.current_age

/-- The number of iterations of the accumulation loop and the exponent of
the compounding powers; equals `years_to_go` whenever that is positive. -/
def yearsNat (p : PlanInputs) : Nat :=
  (years_to_go_of p).toNat

/-- `future_inflation_factor = (1 + inflation) ** years_to_go`. -/
def future_inflation_factor_of (p : PlanInputs) : ℚ :=
  (1 + p.inflation) ^ yearsNat p

/-- `target_annual_income_future = (target_monthly_income_today_value * 12)
* future_inflation_factor`. -/
def target_annual_income_future_of (p : PlanInputs) : ℚ :=
  (p.target_monthly_income_today_value * 12) * future_inflation_factor_of p

/-- `safe_withdrawal_rate_return = 0.04`, the fixed discount rate used for
annuity valuation inside `run_simulation`. -/
def safe_withdrawal_rate_return : ℚ := 4 / 100

/-- The annuity factor as computed inside `run_simulation`: always at the
fixed rate `safe_withdrawal_rate_return`. -/
def annuity_factor_of (p : PlanInputs) (mortality_tables : MortTable × MortTable) : ℚ :=
  calculate_life_annuity_factor p.retire_age p.gender safe_withdrawal_rate_return mortality_tables

/-- `total_nest_egg_needed = target_annual_income_future * annuity_factor`. -/
def total_nest_egg_needed_of (p : PlanInputs) (mortality_tables : MortTable × MortTable) : ℚ :=
  target_annual_income_future_of p * annuity_factor_of p mortality_tables

/-- The accumulation loop of `run_simulation`: for each year, add
`yearly_salary * total_contribution_rate` to the balance, multiply the
balance by `(1 + investment_return)`, multiply the salary by
`(1 + salary_growth)`. -/
def accumulation_loop (total_contribution_rate investment_return salary_growth : ℚ) :
    Nat → ℚ → ℚ → ℚ
  | 0, projected_balance, _ => projected_balance
  | n + 1, projected_balance, yearly_salary =>
    accumulation_loop total_contribution_rate investment_return salary_growth n
      ((projected_balance + yearly_salary * total_contribution_rate) * (1 + investment_return))
      (yearly_salary * (1 + salary_growth))

/-- `projected_balance` after the accumulation loop, starting from balance
`0.0` and salary `current_salary`. -/
def projected_balance_of (p : PlanInputs) : ℚ :=
  accumulation_loop (p.employer_contrib_pct + p.personal_contrib_pct)
    p.investment_return p.salary_growth (yearsNat p) 0 p.current_salary

/-- `shortfall = total_nest_egg_needed - projected_balance`. -/
def shortfall_of (p : PlanInputs) (mortality_tables : MortTable × MortTable) : ℚ :=
  total_nest_egg_needed_of p mortality_tables - projected_balance_of p

/-- The result record returned by `run_simulation` on success. -/
structure SimResult where
  nest_egg_needed : ℚ
  projected_balance : ℚ
  shortfall : ℚ
  extra_monthly_needed : ℚ
  future_monthly_target : ℚ
  years_to_go : ℤ
  annuity_factor : ℚ
deriving DecidableEq, Repr

/-- The observable outcome of `run_simulation`: the `(None, "Already
Retired")` signal, a raised `ZeroDivisionError` (when `shortfall > 0` and
`(1+investment_return)**years_to_go - 1 == 0`), or the `(results,
"Success")` record. -/
inductive SimOutcome where
  | alreadyRetired : SimOutcome
  | exception : SimOutcome
  | success : SimResult → SimOutcome
deriving DecidableEq, Repr

/-- `run_simulation` from the source.  Straight-line arithmetic is factored
into the `*_of` definitions above; the branch structure (`years_to_go <= 0`
guard, `shortfall > 0` remediation branch, and the division that raises
when its denominator is zero) mirrors the source. -/
def run_simulation (p : PlanInputs) (mortality_tables : MortTable × MortTable) : SimOutcome :=
  if years_to_go_of p ≤ 0 then SimOutcome.alreadyRetired
  else if 0 < shortfall_of p mortality_tables then
    if (1 + p.investment_return) ^ yearsNat p - 1 = 0 then SimOutcome.exception
    else
      SimOutcome.success
        { nest_egg_needed := total_nest_egg_needed_of p mortality_tables
          projected_balance := projected_balance_of p
          shortfall := shortfall_of p mortality_tables
          extra_monthly_needed :=
            shortfall_of p mortality_tables * p.investment_return /
              ((1 + p.investment_return) ^ yearsNat p - 1) / 12
          future_monthly_target := target_annual_income_future_of p / 12
          years_to_go := years_to_go_of p
          annuity_factor := annuity_factor_of p mortality_tables }
  else
    SimOutcome.success
      { nest_egg_needed := total_nest_egg_needed_of p mortality_tables
        projected_balance := projected_balance_of p
        shortfall := shortfall_of p mortality_tables
        extra_monthly_needed := 0
        future_monthly_target := target_annual_income_future_of p / 12
        years_to_go := years_to_go_of p
        annuity_factor := annuity_factor_of p mortality_tables }

/-! ## Spec-side definitions

These restate, in the spec's own words, the recurrences the claims
describe; the claim theorems compare them with the definitions translated
from the source. -/

/-- One year of the accumulation recurrence as the spec words it: first
add `salary * (employerRate + personalRate)` to the balance, then multiply
the balance by `(1 + investmentReturn)`, then multiply the salary by
`(1 + salaryGrowth)`. State is `(balance, salary)`. -/
def claimYearStep (p : PlanInputs) : ℚ × ℚ → ℚ × ℚ := fun s =>
  let balance := s.1 + s.2 * (p.employer_contrib_pct + p.personal_contrib_pct)
  let balance' := balance * (1 + p.investment_return)
  let salary' := s.2 * (1 + p.salary_growth)
  (balance', salary')

/-- The balance reached by iterating `claimYearStep` for `n` years from
balance `0` and salary `currentAnnualSalary`. -/
def claimProjectedBalance (p : PlanInputs) (n : Nat) : ℚ :=
  ((claimYearStep p)^[n] (0, p.current_salary)).1

/-- The annuity valuation loop as the spec words it: iterate year offsets
`t = 0, 1, 2, …`, stopping once `retirementAge + t ≥ 115` (encoded by the
fuel, which starts at `(115 - retirementAge).toNat` and counts the offsets
left before the horizon) or once the running survival probability has
dropped below `0.0001` (checked at the head of each iteration); at each
step accumulate `S * (1/(1+discountRate)^t)` and then update
`S := S * (1 - qx)` with the defaulted-and-clamped table lookup. -/
def specAnnuityGo (table : MortTable) (retirement_age : ℤ) (discount_rate : ℚ) :
    Nat → Nat → ℚ → ℚ → ℚ
  | 0, _, _, total => total
  | fuel + 1, t, s, total =>
    if s < 1 / 10000 then total
    else
      specAnnuityGo table retirement_age discount_rate fuel (t + 1)
        (s * (1 - sanitize_qx (table_get table (retirement_age + Int.ofNat t))))
        (total + s * (1 / (1 + discount_rate) ^ t))

/-- The spec-side annuity factor: gender table selection, then the
spec-side loop from `t = 0`, survival `1`, total `0`. -/
def annuityFactorSpec (retirement_age : ℤ) (gender : Gender)
    (discount_rate : ℚ) (mortality_tables : MortTable × MortTable) : ℚ :=
  let table := match gender with
    | Gender.Male => mortality_tables.1
    | Gender.Female => mortality_tables.2
  specAnnuityGo table retirement_age discount_rate (115 - retirement_age).toNat 0 1 0

/-- A table all of whose entries are rationals in `[0, 1]` (no NaN cells,
no negative or super-unit probabilities). -/
def validTable (table : MortTable) : Prop :=
  ∀ a v, table a = some v → ∃ q, v = QVal.val q ∧ 0 ≤ q ∧ q ≤ 1

/-- Extract the success record of an outcome, with a fallback default. -/
def SimOutcome.getD : SimOutcome → SimResult → SimResult
  | SimOutcome.success r, _ => r
  | _, d => d

/-- Concrete plan for the C1 witness: 2 years to go, surplus (no target),
so `run_simulation` succeeds. -/
def pW1 : PlanInputs :=
  { current_age := 111, retire_age := 113, current_salary := 1000,
    salary_growth := 1/10, investment_return := 7/100, inflation := 0,
    employer_contrib_pct := 5/100, personal_contrib_pct := 5/100,
    target_monthly_income_today_value := 0, gender := Gender.Male }

def resW1 : SimResult :=
  (run_simulation pW1 (emptyTable, emptyTable)).getD
    { nest_egg_needed := 0, projected_balance := 0, shortfall := 0,
      extra_monthly_needed := 0, future_monthly_target := 0, years_to_go := 0,
      annuity_factor := 0 }

def pW2 : PlanInputs :=
  { current_age := 110, retire_age := 113, current_salary := 500,
    salary_growth := 0, investment_return := 1/10, inflation := 1/20,
    employer_contrib_pct := 1/10, personal_contrib_pct := 1/10,
    target_monthly_income_today_value := 0, gender := Gender.Female }

def resW2 : SimResult :=
  (run_simulation pW2 (emptyTable, emptyTable)).getD
    { nest_egg_needed := 0, projected_balance := 0, shortfall := 0,
      extra_monthly_needed := 0, future_monthly_target := 0, years_to_go := 0,
      annuity_factor := 0 }

/-- Concrete plan for the C3 witness: positive shortfall, nonzero return,
nonzero denominator. -/
def pW3 : PlanInputs :=
  { current_age := 112, retire_age := 113, current_salary := 0,
    salary_growth := 0, investment_return := 1, inflation := 0,
    employer_contrib_pct := 0, personal_contrib_pct := 0,
    target_monthly_income_today_value := 1, gender := Gender.Male }

def resW3 : SimResult :=
  (run_simulation pW3 (emptyTable, emptyTable)).getD
    { nest_egg_needed := 0, projected_balance := 0, shortfall := 0,
      extra_monthly_needed := 0, future_monthly_target := 0, years_to_go := 0,
      annuity_factor := 0 }

/-- Concrete plan refuting C7/C8 as stated: `retirementAge > currentAge`,
zero investment return, positive shortfall — the remediation division is
`/ ((1+0)^2 - 1) = / 0`, a `ZeroDivisionError` in the source. -/
def pC7 : PlanInputs :=
  { current_age := 112, retire_age := 114, current_salary := 0,
    salary_growth := 0, investment_return := 0, inflation := 0,
    employer_contrib_pct := 0, personal_contrib_pct := 0,
    target_monthly_income_today_value := 1, gender := Gender.Male }

/-- Concrete plan for the C8 counterexample (distinct from `pC7`). -/
def pC8 : PlanInputs :=
  { current_age := 113, retire_age := 114, current_salary := 5,
    salary_growth := 0, investment_return := 0, inflation := 0,
    employer_contrib_pct := 0, personal_contrib_pct := 0,
    target_monthly_income_today_value := 3, gender := Gender.Female }

/-- The per-age value stored by `_generate_synthetic_mortality`:
`age_offset = 5 if gender == "Female" else 0`,
`effective_age = max(0, age - age_offset)`; `qx = 0.0005` below effective
age 30, exponentially increasing `0.0005 * exp(0.092 * (effective_age -
30))` above, and the stored entry is `min(qx, 1.0)`. -/
noncomputable def syntheticQx (gender : Gender) (age : ℤ) : ℝ :=
  let age_offset : ℤ := if gender = Gender.Female then 5 else 0
  let effective_age : ℤ := max 0 (age - age_offset)
  let qx : ℝ :=
    if effective_age < 30 then 0.0005
    else 0.0005 * Real.exp (0.092 * ((effective_age : ℝ) - 30))
  min qx 1.0

/-- The formula claim C9 states for the synthetic generator: `qx = 0.0005`
when `max(0, a - offset) < 30`, and
`min(0.0005 * e^(0.092 * (max(0, a - offset) - 30)), 1.0)` otherwise. -/
noncomputable def syntheticQxClaim (gender : Gender) (age : ℤ) : ℝ :=
  let offset : ℤ := if gender = Gender.Female then 5 else 0
  if max 0 (age - offset) < 30 then 0.0005
  else min (0.0005 * Real.exp (0.092 * (((max 0 (age - offset) : ℤ) : ℝ) - 30))) 1.0

/-- Concrete plan for the C10 witness: retires exactly at the horizon. -/
def pW10 : PlanInputs :=
  { current_age := 114, retire_age := 115, current_salary := 100,
    salary_growth := 2/100, investment_return := 5/100, inflation := 3/100,
    employer_contrib_pct := 5/100, personal_contrib_pct := 5/100,
    target_monthly_income_today_value := 10, gender := Gender.Male }

/-! ## Helper lemmas about `run_simulation` -/

theorem run_simulation_alreadyRetired_iff (p : PlanInputs) (T : MortTable × MortTable) :
    run_simulation p T = SimOutcome.alreadyRetired ↔ years_to_go_of p ≤ 0 := by
  by_cases h1 : years_to_go_of p ≤ 0
  · simp [run_simulation, h1]
  · by_cases h2 : 0 < shortfall_of p T
    · by_cases h3 : (1 + p.investment_return) ^ yearsNat p - 1 = 0
      · simp [run_simulation, h1, h2, h3]
      · simp [run_simulation, h1, h2, h3]
    · simp [run_simulation, h1, h2]

theorem run_simulation_exception_iff (p : PlanInputs) (T : MortTable × MortTable) :
    run_simulation p T = SimOutcome.exception ↔
      (0 < years_to_go_of p ∧ 0 < shortfall_of p T ∧
        (1 + p.investment_return) ^ yearsNat p - 1 = 0) := by
  by_cases h1 : years_to_go_of p ≤ 0
  · simp [run_simulation, h1]
  · by_cases h2 : 0 < shortfall_of p T
    · by_cases h3 : (1 + p.investment_return) ^ yearsNat p - 1 = 0
      · simp [run_simulation, h1, h2, h3]
        omega
      · simp [run_simulation, h1, h2, h3]
    · simp [run_simulation, h1, h2]

theorem run_simulation_success_iff (p : PlanInputs) (T : MortTable × MortTable) :
    (∃ res, run_simulation p T = SimOutcome.success res) ↔
      (0 < years_to_go_of p ∧
        ¬(0 < shortfall_of p T ∧ (1 + p.investment_return) ^ yearsNat p - 1 = 0)) := by
  by_cases h1 : years_to_go_of p ≤ 0
  · simp [run_simulation, h1]
  · by_cases h2 : 0 < shortfall_of p T
    · by_cases h3 : (1 + p.investment_return) ^ yearsNat p - 1 = 0
      · simp [run_simulation, h1, h2, h3]
      · simp [run_simulation, h1, h2, h3]
        omega
    · simp [run_simulation, h1, h2]
      omega

theorem run_simulation_success_fields (p : PlanInputs) (T : MortTable × MortTable)
    (res : SimResult) (h : run_simulation p T = SimOutcome.success res) :
    res.nest_egg_needed = total_nest_egg_needed_of p T ∧
    res.projected_balance = projected_balance_of p ∧
    res.shortfall = shortfall_of p T ∧
    res.future_monthly_target = target_annual_income_future_of p / 12 ∧
    res.years_to_go = years_to_go_of p ∧
    res.annuity_factor = annuity_factor_of p T ∧
    (0 < shortfall_of p T →
      res.extra_monthly_needed = shortfall_of p T * p.investment_return /
        ((1 + p.investment_return) ^ yearsNat p - 1) / 12) ∧
    (shortfall_of p T ≤ 0 → res.extra_monthly_needed = 0) := by
  unfold run_simulation at h
  by_cases h1 : years_to_go_of p ≤ 0
  · rw [if_pos h1] at h
    cases h
  · rw [if_neg h1] at h
    by_cases h2 : 0 < shortfall_of p T
    · rw [if_pos h2] at h
      by_cases h3 : (1 + p.investment_return) ^ yearsNat p - 1 = 0
      · rw [if_pos h3] at h
        cases h
      · rw [if_neg h3] at h
        cases h
        exact ⟨rfl, rfl, rfl, rfl, rfl, rfl, fun _ => rfl,
          fun hle => absurd h2 (not_lt.mpr hle)⟩
    · rw [if_neg h2] at h
      cases h
      exact ⟨rfl, rfl, rfl, rfl, rfl, rfl, fun hlt => absurd hlt h2, fun _ => rfl⟩

theorem run_simulation_success_years_pos (p : PlanInputs) (T : MortTable × MortTable)
    (res : SimResult) (h : run_simulation p T = SimOutcome.success res) :
    0 < years_to_go_of p := by
  by_cases h1 : years_to_go_of p ≤ 0
  · unfold run_simulation at h
    rw [if_pos h1] at h
    cases h
  · omega

/-! ## Helper lemmas about the accumulation loop and the annuity loop -/

theorem accumulation_loop_eq_iterate (p : PlanInputs) :
    ∀ (n : Nat) (b s : ℚ),
      accumulation_loop (p.employer_contrib_pct + p.personal_contrib_pct)
        p.investment_return p.salary_growth n b s = ((claimYearStep p)^[n] (b, s)).1 := by
  intro n
  induction n with
  | zero =>
    intro b s
    simp [accumulation_loop]
  | succ k ih =>
    intro b s
    rw [accumulation_loop, Function.iterate_succ_apply]
    exact ih ((b + s * (p.employer_contrib_pct + p.personal_contrib_pct)) *
      (1 + p.investment_return)) (s * (1 + p.salary_growth))

theorem accumulation_loop_nonneg (c r g : ℚ) (hc : 0 ≤ c) (hr : -1 ≤ r) (hg : -1 ≤ g) :
    ∀ (n : Nat) (b s : ℚ), 0 ≤ b → 0 ≤ s → 0 ≤ accumulation_loop c r g n b s := by
  intro n
  induction n with
  | zero =>
    intro b s hb _
    exact hb
  | succ k ih =>
    intro b s hb hs
    rw [accumulation_loop]
    exact ih _ _
      (mul_nonneg (add_nonneg hb (mul_nonneg hs hc)) (by linarith))
      (mul_nonneg hs (by linarith))

theorem specAnnuityGo_of_lt (table : MortTable) (retirement_age : ℤ) (discount_rate : ℚ)
    (fuel t : Nat) (s total : ℚ) (h : s < 1 / 10000) :
    specAnnuityGo table retirement_age discount_rate fuel t s total = total := by
  cases fuel with
  | zero => rfl
  | succ k =>
    rw [specAnnuityGo, if_pos h]

theorem annuity_go_eq_spec (table : MortTable) (retirement_age : ℤ) (discount_rate : ℚ) :
    ∀ (fuel t : Nat) (s total : ℚ), ¬ s < 1 / 10000 →
      annuity_go table retirement_age discount_rate fuel t s total =
        specAnnuityGo table retirement_age discount_rate fuel t s total := by
  intro fuel
  induction fuel with
  | zero =>
    intro t s total _
    rfl
  | succ k ih =>
    intro t s total hs
    rw [annuity_go, specAnnuityGo, if_neg hs]
    by_cases h2 : s * (1 - sanitize_qx (table_get table (retirement_age + Int.ofNat t))) <
        1 / 10000
    · rw [if_pos h2, specAnnuityGo_of_lt table retirement_age discount_rate k (t + 1) _ _ h2]
    · rw [if_neg h2]
      exact ih (t + 1) _ _ h2

theorem sanitize_qx_nonneg (v : QVal) : 0 ≤ sanitize_qx v := by
  cases v with
  | nan => norm_num [sanitize_qx]
  | val q =>
    rw [sanitize_qx]
    by_cases h : q < 0
    · rw [if_pos h]
      norm_num
    · rw [if_neg h]
      exact not_lt.mp h

theorem sanitize_qx_le_one_of_valid {table : MortTable} (hT : validTable table) (age : ℤ) :
    sanitize_qx (table_get table age) ≤ 1 := by
  unfold table_get
  cases hv : table age with
  | none => norm_num [sanitize_qx]
  | some v =>
    obtain ⟨q, hq, hq0, hq1⟩ := hT age v hv
    subst hq
    simpa [sanitize_qx, not_lt.mpr hq0] using hq1

theorem annuity_go_nonneg (table : MortTable) (retirement_age : ℤ) {discount_rate : ℚ}
    (hd : 0 ≤ discount_rate) (hT : validTable table) :
    ∀ (fuel t : Nat) (s total : ℚ), 0 ≤ s → 0 ≤ total →
      0 ≤ annuity_go table retirement_age discount_rate fuel t s total := by
  intro fuel
  induction fuel with
  | zero =>
    intro t s total _ ht
    exact ht
  | succ k ih =>
    intro t s total hs ht
    have hpow : (0:ℚ) < (1 + discount_rate) ^ t := pow_pos (by linarith) t
    have hv : (0:ℚ) ≤ 1 / (1 + discount_rate) ^ t := by positivity
    have htot : (0:ℚ) ≤ total + s * (1 / (1 + discount_rate) ^ t) :=
      add_nonneg ht (mul_nonneg hs hv)
    have hs' : (0:ℚ) ≤ s * (1 - sanitize_qx (table_get table (retirement_age + Int.ofNat t))) :=
      mul_nonneg hs (by linarith [sanitize_qx_le_one_of_valid hT (retirement_age + Int.ofNat t)])
    rw [annuity_go]
    by_cases h2 : s * (1 - sanitize_qx (table_get table (retirement_age + Int.ofNat t))) <
        1 / 10000
    · rw [if_pos h2]
      exact htot
    · rw [if_neg h2]
      exact ih (t + 1) _ _ hs' htot

theorem annuity_go_anti_discount (table : MortTable) (retirement_age : ℤ) {d1 d2 : ℚ}
    (hd1 : 0 ≤ d1) (hdd : d1 ≤ d2) :
    ∀ (fuel t : Nat) (s total2 total1 : ℚ), 0 ≤ s → total2 ≤ total1 →
      annuity_go table retirement_age d2 fuel t s total2 ≤
        annuity_go table retirement_age d1 fuel t s total1 := by
  intro fuel
  induction fuel with
  | zero =>
    intro t s total2 total1 _ htt
    exact htt
  | succ k ih =>
    intro t s total2 total1 hs htt
    have hpow1 : (0:ℚ) < (1 + d1) ^ t := pow_pos (by linarith) t
    have hpowle : (1 + d1) ^ t ≤ (1 + d2) ^ t :=
      pow_le_pow_left₀ (by linarith) (by linarith) t
    have hvle : 1 / (1 + d2) ^ t ≤ 1 / (1 + d1) ^ t :=
      one_div_le_one_div_of_le hpow1 hpowle
    have htot : total2 + s * (1 / (1 + d2) ^ t) ≤ total1 + s * (1 / (1 + d1) ^ t) :=
      add_le_add htt (mul_le_mul_of_nonneg_left hvle hs)
    rw [annuity_go, annuity_go]
    by_cases h2 : s * (1 - sanitize_qx (table_get table (retirement_age + Int.ofNat t))) <
        1 / 10000
    · rw [if_pos h2, if_pos h2]
      exact htot
    · rw [if_neg h2, if_neg h2]
      have hs' : (0:ℚ) ≤ s * (1 - sanitize_qx (table_get table (retirement_age + Int.ofNat t))) :=
        le_trans (by norm_num) (not_lt.mp h2)
      exact ih (t + 1) _ _ _ hs' htot

theorem annuity_factor_horizon (retirement_age : ℤ) (h : 115 ≤ retirement_age)
    (gender : Gender) (discount_rate : ℚ) (mortality_tables : MortTable × MortTable) :
    calculate_life_annuity_factor retirement_age gender discount_rate mortality_tables = 0 := by
  have hz : (115 - retirement_age).toNat = 0 := by omega
  simp only [calculate_life_annuity_factor, hz]
  rfl

/-! ## Claim theorems -/

/-- C1: for every `PlanInputs` with `retirementAge > currentAge`, the
projected balance in the result returned by `run_simulation` equals the
value of the recurrence that starts from balance `0` and salary
`currentAnnualSalary` and, for each of the `yearsToGo` years, first adds
`salary * (employerRate + personalRate)` to the balance, then multiplies
the balance by `(1+investmentReturn)`, then multiplies the salary by
`(1+salaryGrowth)` — in that order. -/
theorem C1_projected_balance_recurrence (p : PlanInputs) (T : MortTable × MortTable)
    (hage : p.current_age < p.retire_age) (res : SimResult)
    (h : run_simulation p T = SimOutcome.success res) :
    res.projected_balance = claimProjectedBalance p (p.retire_age - p.current_age).toNat := by
  have hf := (run_simulation_success_fields p T res h).2.1
  rw [hf, projected_balance_of, accumulation_loop_eq_iterate]
  rfl

set_option maxRecDepth 8000 in
theorem C1_witness :
    pW1.current_age < pW1.retire_age ∧
    run_simulation pW1 (emptyTable, emptyTable) = SimOutcome.success resW1 ∧
    resW1.projected_balance = claimProjectedBalance pW1 (pW1.retire_age - pW1.current_age).toNat :=
  ⟨by decide, by with_unfolding_all rfl,
    C1_projected_balance_recurrence pW1 (emptyTable, emptyTable) (by decide) resW1
      (by with_unfolding_all rfl)⟩

/-- C2: for every `PlanInputs` with `retirementAge > currentAge`, the
result returned by `run_simulation` carries
`nestEggNeeded = targetMonthly * 12 * (1+inflation)^yearsToGo * annuityFactor`
with the annuity factor evaluated at the fixed discount rate `0.04`
(independent of the user's `investmentReturn`), a future monthly target of
`futureAnnualIncome / 12`, and `years_to_go = retirementAge - currentAge`. -/
theorem C2_goal_sizing (p : PlanInputs) (T : MortTable × MortTable)
    (hage : p.current_age < p.retire_age) (res : SimResult)
    (h : run_simulation p T = SimOutcome.success res) :
    res.nest_egg_needed =
      p.target_monthly_income_today_value * 12 *
        (1 + p.inflation) ^ (p.retire_age - p.current_age).toNat *
        calculate_life_annuity_factor p.retire_age p.gender (4/100) T ∧
    res.future_monthly_target =
      p.target_monthly_income_today_value * 12 *
        (1 + p.inflation) ^ (p.retire_age - p.current_age).toNat / 12 ∧
    res.years_to_go = p.retire_age - p.current_age ∧
    res.annuity_factor = calculate_life_annuity_factor p.retire_age p.gender (4/100) T := by
  obtain ⟨h1, _, _, h4, h5, _, _, _⟩ := run_simulation_success_fields p T res h
  have h6 := (run_simulation_success_fields p T res h).2.2.2.2.2.1
  refine ⟨?_, ?_, ?_, ?_⟩
  · rw [h1]
    simp only [total_nest_egg_needed_of, target_annual_income_future_of,
      future_inflation_factor_of, annuity_factor_of, safe_withdrawal_rate_return,
      yearsNat, years_to_go_of]
  · exact h4
  · exact h5
  · exact h6

set_option maxRecDepth 8000 in
theorem C2_witness :
    pW2.current_age < pW2.retire_age ∧
    run_simulation pW2 (emptyTable, emptyTable) = SimOutcome.success resW2 ∧
    (resW2.nest_egg_needed =
      pW2.target_monthly_income_today_value * 12 *
        (1 + pW2.inflation) ^ (pW2.retire_age - pW2.current_age).toNat *
        calculate_life_annuity_factor pW2.retire_age pW2.gender (4/100)
          (emptyTable, emptyTable) ∧
    resW2.future_monthly_target =
      pW2.target_monthly_income_today_value * 12 *
        (1 + pW2.inflation) ^ (pW2.retire_age - pW2.current_age).toNat / 12 ∧
    resW2.years_to_go = pW2.retire_age - pW2.current_age ∧
    resW2.annuity_factor =
      calculate_life_annuity_factor pW2.retire_age pW2.gender (4/100)
        (emptyTable, emptyTable)) :=
  ⟨by decide, by with_unfolding_all rfl,
    C2_goal_sizing pW2 (emptyTable, emptyTable) (by decide) resW2
      (by with_unfolding_all rfl)⟩

/-- C3: in every result returned by `run_simulation` (with
`retirementAge > currentAge`), `shortfall = nestEggNeeded -
projectedBalance`; when the shortfall is positive (and the investment
return nonzero) the extra monthly contribution is
`shortfall * r / ((1+r)^yearsToGo - 1) / 12`; when the shortfall is
non-positive (in particular when the projected balance exactly equals the
nest egg) the extra monthly contribution is `0`. -/
theorem C3_remediation (p : PlanInputs) (T : MortTable × MortTable)
    (hage : p.current_age < p.retire_age) (res : SimResult)
    (h : run_simulation p T = SimOutcome.success res) :
    res.shortfall = res.nest_egg_needed - res.projected_balance ∧
    (0 < res.shortfall → p.investment_return ≠ 0 →
      res.extra_monthly_needed = res.shortfall * p.investment_return /
        ((1 + p.investment_return) ^ (p.retire_age - p.current_age).toNat - 1) / 12) ∧
    (res.shortfall ≤ 0 → res.extra_monthly_needed = 0) := by
  obtain ⟨h1, h2, h3, _, _, _, h7, h8⟩ := run_simulation_success_fields p T res h
  refine ⟨?_, ?_, ?_⟩
  · rw [h1, h2, h3]
    rfl
  · intro hpos _
    rw [h3] at hpos ⊢
    exact h7 hpos
  · intro hle
    rw [h3] at hle
    exact h8 hle

set_option maxRecDepth 8000 in
theorem C3_witness :
    pW3.current_age < pW3.retire_age ∧
    run_simulation pW3 (emptyTable, emptyTable) = SimOutcome.success resW3 ∧
    0 < resW3.shortfall ∧ pW3.investment_return ≠ 0 ∧
    resW3.shortfall = resW3.nest_egg_needed - resW3.projected_balance ∧
    resW3.extra_monthly_needed = resW3.shortfall * pW3.investment_return /
      ((1 + pW3.investment_return) ^ (pW3.retire_age - pW3.current_age).toNat - 1) / 12 :=
  ⟨by decide, by with_unfolding_all rfl,
    by with_unfolding_all decide, by with_unfolding_all decide,
    (C3_remediation pW3 (emptyTable, emptyTable) (by decide) resW3
      (by with_unfolding_all rfl)).1,
    (C3_remediation pW3 (emptyTable, emptyTable) (by decide) resW3
      (by with_unfolding_all rfl)).2.1 (by with_unfolding_all decide)
      (by with_unfolding_all decide)⟩

/-- C4 : `calculate_life_annuity_factor` computes exactly the loop the
spec describes: iterate integer future years `t = 0, 1, 2, …` from the
retirement age, stopping at the age-115 horizon or earlier once the
survival probability drops below `0.0001`; each step accumulates
`S / (1+discountRate)^t` and then multiplies `S` by `(1 - qx)`, where `qx`
is the table lookup defaulting to `1` for missing ages and clamped to `1`
for NaN or negative stored values. -/
theorem C4_annuity_loop_refines_spec (retirement_age : ℤ) (gender : Gender)
    (discount_rate : ℚ) (mortality_tables : MortTable × MortTable) :
    calculate_life_annuity_factor retirement_age gender discount_rate mortality_tables =
      annuityFactorSpec retirement_age gender discount_rate mortality_tables := by
  unfold calculate_life_annuity_factor annuityFactorSpec
  exact annuity_go_eq_spec _ retirement_age discount_rate _ 0 1 0 (by norm_num)

theorem validTable_emptyTable : validTable emptyTable :=
  fun _ v h => Option.noConfusion h

/-- C5: for every mortality table whose entries all lie in `[0,1]` and
every non-negative discount rate, the annuity factor is non-negative (in
`ℚ` it is automatically finite, and the definition is total — no error
condition). -/
theorem C5_annuity_factor_nonneg (retirement_age : ℤ) (gender : Gender)
    {discount_rate : ℚ} (hd : 0 ≤ discount_rate)
    (mortality_tables : MortTable × MortTable)
    (hM : validTable mortality_tables.1) (hF : validTable mortality_tables.2) :
    0 ≤ calculate_life_annuity_factor retirement_age gender discount_rate mortality_tables := by
  cases gender with
  | Male =>
    exact annuity_go_nonneg mortality_tables.1 retirement_age hd hM
      (115 - retirement_age).toNat 0 1 0 (by norm_num) le_rfl
  | Female =>
    exact annuity_go_nonneg mortality_tables.2 retirement_age hd hF
      (115 - retirement_age).toNat 0 1 0 (by norm_num) le_rfl

theorem C5_witness :
    (0:ℚ) ≤ 4/100 ∧ validTable emptyTable ∧
    0 ≤ calculate_life_annuity_factor 65 Gender.Male (4/100) (emptyTable, emptyTable) :=
  ⟨by norm_num, validTable_emptyTable,
    C5_annuity_factor_nonneg 65 Gender.Male (by norm_num) (emptyTable, emptyTable)
      validTable_emptyTable validTable_emptyTable⟩

/-- C6: for a fixed mortality table pair, gender and retirement age, the
annuity factor is monotonically non-increasing in the discount rate: if
`0 ≤ d1 ≤ d2` then the factor at `d2` is at most the factor at `d1`. -/
theorem C6_annuity_factor_antitone (retirement_age : ℤ) (gender : Gender)
    (mortality_tables : MortTable × MortTable) {d1 d2 : ℚ}
    (hd1 : 0 ≤ d1) (hd2 : 0 ≤ d2) (hdd : d1 ≤ d2) :
    calculate_life_annuity_factor retirement_age gender d2 mortality_tables ≤
      calculate_life_annuity_factor retirement_age gender d1 mortality_tables := by
  cases gender with
  | Male =>
    exact annuity_go_anti_discount mortality_tables.1 retirement_age hd1 hdd
      (115 - retirement_age).toNat 0 1 0 0 (by norm_num) le_rfl
  | Female =>
    exact annuity_go_anti_discount mortality_tables.2 retirement_age hd1 hdd
      (115 - retirement_age).toNat 0 1 0 0 (by norm_num) le_rfl

theorem C6_witness :
    (0:ℚ) ≤ 0 ∧ (0:ℚ) ≤ 1/10 ∧ (0:ℚ) ≤ 1/10 ∧
    calculate_life_annuity_factor 70 Gender.Female (1/10) (emptyTable, emptyTable) ≤
      calculate_life_annuity_factor 70 Gender.Female 0 (emptyTable, emptyTable) :=
  ⟨le_rfl, by norm_num, by norm_num,
    C6_annuity_factor_antitone 70 Gender.Female (emptyTable, emptyTable)
      le_rfl (by norm_num) (by norm_num)⟩

set_option maxRecDepth 8000 in
/-- C7 counterexample: a plan with `retirementAge > currentAge` on which
`run_simulation` returns neither a result nor the "Already Retired"
signal — it raises (the `exception` outcome). -/
theorem C7_counterexample :
    pC7.current_age < pC7.retire_age ∧
    run_simulation pC7 (emptyTable, emptyTable) = SimOutcome.exception :=
  ⟨by decide, by with_unfolding_all rfl⟩

/-- C7 (amended): `run_simulation` returns "Already Retired" exactly when
`retirementAge - currentAge ≤ 0`, and when `retirementAge > currentAge` it
returns a result exactly when the remediation division is not reached with
a zero denominator — i.e. unless the shortfall is positive and
`(1+investmentReturn)^yearsToGo = 1` (in which case it raises). -/
theorem C7_amended_guard (p : PlanInputs) (T : MortTable × MortTable) :
    (run_simulation p T = SimOutcome.alreadyRetired ↔ p.retire_age - p.current_age ≤ 0) ∧
    ((∃ res, run_simulation p T = SimOutcome.success res) ↔
      (0 < p.retire_age - p.current_age ∧
        ¬(0 < shortfall_of p T ∧
          (1 + p.investment_return) ^ (p.retire_age - p.current_age).toNat = 1))) := by
  constructor
  · exact run_simulation_alreadyRetired_iff p T
  · rw [run_simulation_success_iff p T]
    constructor
    · rintro ⟨h1, h2⟩
      exact ⟨h1, fun hc => h2 ⟨hc.1, sub_eq_zero.mpr hc.2⟩⟩
    · rintro ⟨h1, h2⟩
      exact ⟨h1, fun hc => h2 ⟨hc.1, sub_eq_zero.mp hc.2⟩⟩

set_option maxRecDepth 8000 in
/-- C8 counterexample: with `investmentReturn = 0` and a positive
shortfall, the remediation division divides by zero — `run_simulation`
raises instead of returning a discriminated result. -/
theorem C8_counterexample :
    pC8.current_age < pC8.retire_age ∧ pC8.investment_return = 0 ∧
    0 < shortfall_of pC8 (emptyTable, emptyTable) ∧
    run_simulation pC8 (emptyTable, emptyTable) = SimOutcome.exception :=
  ⟨by decide, by decide, by with_unfolding_all decide, by with_unfolding_all rfl⟩

/-- C8 (amended): `run_simulation` raises exactly when
`retirementAge > currentAge`, the shortfall is positive, and
`(1+investmentReturn)^yearsToGo = 1` (e.g. a zero investment return); on
every other input it returns a discriminated result (the invalid-plan
signal or a success record). -/
theorem C8_exception_characterization (p : PlanInputs) (T : MortTable × MortTable) :
    run_simulation p T = SimOutcome.exception ↔
      (0 < p.retire_age - p.current_age ∧ 0 < shortfall_of p T ∧
        (1 + p.investment_return) ^ (p.retire_age - p.current_age).toNat = 1) := by
  rw [run_simulation_exception_iff p T]
  constructor
  · rintro ⟨h1, h2, h3⟩
    exact ⟨h1, h2, sub_eq_zero.mp h3⟩
  · rintro ⟨h1, h2, h3⟩
    exact ⟨h1, h2, sub_eq_zero.mpr h3⟩

theorem real_exp_184_le_2000 : Real.exp (0.092 * 20) ≤ 2000 := by
  have h1 : Real.exp (0.092 * 20) ≤ Real.exp 2 := Real.exp_le_exp.mpr (by norm_num)
  have h2 : Real.exp 2 = Real.exp 1 * Real.exp 1 := by
    rw [← Real.exp_add]
    norm_num
  have h3 : Real.exp 1 < 2.7182818286 := Real.exp_one_lt_d9
  have h4 : 0 < Real.exp 1 := Real.exp_pos 1
  nlinarith

/-- C9: for every age in `[0, 120]` the synthetic generator produces
exactly the claimed formula (offset 5 for Female, 0 for Male), and in
particular `syntheticQx Male 30 = 0.0005`, `syntheticQx Female 35 =
0.0005`, and `syntheticQx Male 50 = 0.0005 * e^(0.092*20)`. -/
theorem C9_synthetic_generator :
    (∀ (gender : Gender) (age : ℤ), 0 ≤ age → age ≤ 120 →
      syntheticQx gender age = syntheticQxClaim gender age) ∧
    syntheticQx Gender.Male 30 = 0.0005 ∧
    syntheticQx Gender.Female 35 = 0.0005 ∧
    syntheticQx Gender.Male 50 = 0.0005 * Real.exp (0.092 * 20) := by
  have hqx1 : (0.0005 : ℝ) ≤ 1.0 := by norm_num
  have hle : (0.0005:ℝ) * Real.exp (0.092 * 20) ≤ 1.0 := by
    nlinarith [real_exp_184_le_2000, Real.exp_pos (0.092 * 20)]
  refine ⟨?_, ?_, ?_, ?_⟩
  · intro gender age _ _
    simp only [syntheticQx, syntheticQxClaim]
    by_cases h : max 0 (age - (if gender = Gender.Female then 5 else 0)) < 30
    · rw [if_pos h, if_pos h, min_eq_left hqx1]
    · rw [if_neg h, if_neg h]
  · simp only [syntheticQx]
    rw [show (if Gender.Male = Gender.Female then (5:ℤ) else 0) = 0 from rfl]
    rw [show max (0:ℤ) (30 - 0) = 30 from by decide]
    rw [if_neg (by decide : ¬ ((30:ℤ) < 30))]
    rw [show (((30:ℤ) : ℝ) - 30) = 0 from by norm_num]
    rw [show (0.092:ℝ) * 0 = 0 from by norm_num, Real.exp_zero]
    norm_num
  · simp only [syntheticQx]
    simp only [if_true]
    rw [show max (0:ℤ) (35 - 5) = 30 from by decide]
    rw [if_neg (by decide : ¬ ((30:ℤ) < 30))]
    rw [show (((30:ℤ) : ℝ) - 30) = 0 from by norm_num]
    rw [show (0.092:ℝ) * 0 = 0 from by norm_num, Real.exp_zero]
    norm_num
  · simp only [syntheticQx]
    rw [show (if Gender.Male = Gender.Female then (5:ℤ) else 0) = 0 from rfl]
    rw [show max (0:ℤ) (50 - 0) = 50 from by decide]
    rw [if_neg (by decide : ¬ ((50:ℤ) < 30))]
    rw [show (((50:ℤ) : ℝ) - 30) = 20 from by norm_num]
    exact min_eq_left hle

theorem C9_witness :
    (0:ℤ) ≤ 10 ∧ (10:ℤ) ≤ 120 ∧
    syntheticQx Gender.Male 10 = syntheticQxClaim Gender.Male 10 :=
  ⟨by decide, by decide, C9_synthetic_generator.1 Gender.Male 10 (by decide) (by decide)⟩

/-- C10: for every retirement age `≥ 115` the valuation loop makes zero
iterations, so the annuity factor is exactly `0` whatever the tables,
gender or discount rate; consequently, for a plan with such a retirement
age (and non-negative salary, non-negative total contribution rate, and
growth factors `≥ -100%`), `run_simulation` succeeds with a nest egg of
`0` and a non-positive shortfall. -/
theorem C10_horizon_zero :
    (∀ (retirement_age : ℤ), 115 ≤ retirement_age →
      ∀ (gender : Gender) (discount_rate : ℚ) (mortality_tables : MortTable × MortTable),
        calculate_life_annuity_factor retirement_age gender discount_rate mortality_tables = 0) ∧
    (∀ (p : PlanInputs) (T : MortTable × MortTable),
      115 ≤ p.retire_age → p.current_age < p.retire_age →
      0 ≤ p.current_salary → 0 ≤ p.employer_contrib_pct + p.personal_contrib_pct →
      -1 ≤ p.investment_return → -1 ≤ p.salary_growth →
      ∃ res, run_simulation p T = SimOutcome.success res ∧
        res.nest_egg_needed = 0 ∧ res.shortfall ≤ 0) := by
  constructor
  · intro ra h g d T
    exact annuity_factor_horizon ra h g d T
  · intro p T h115 hage hsal hc hr hg
    have hann : annuity_factor_of p T = 0 :=
      annuity_factor_horizon p.retire_age h115 p.gender safe_withdrawal_rate_return T
    have hnest : total_nest_egg_needed_of p T = 0 := by
      rw [total_nest_egg_needed_of, hann, mul_zero]
    have hbal : 0 ≤ projected_balance_of p :=
      accumulation_loop_nonneg _ _ _ hc hr hg (yearsNat p) 0 p.current_salary le_rfl hsal
    have hshort : shortfall_of p T ≤ 0 := by
      rw [shortfall_of, hnest]
      linarith
    have hy : ¬ years_to_go_of p ≤ 0 := by
      unfold years_to_go_of
      omega
    refine ⟨{ nest_egg_needed := total_nest_egg_needed_of p T
              projected_balance := projected_balance_of p
              shortfall := shortfall_of p T
              extra_monthly_needed := 0
              future_monthly_target := target_annual_income_future_of p / 12
              years_to_go := years_to_go_of p
              annuity_factor := annuity_factor_of p T }, ?_, hnest, hshort⟩
    unfold run_simulation
    rw [if_neg hy, if_neg (not_lt.mpr hshort)]

theorem C10_witness :
    (115:ℤ) ≤ 115 ∧ (115:ℤ) ≤ pW10.retire_age ∧ pW10.current_age < pW10.retire_age ∧
    (0:ℚ) ≤ pW10.current_salary ∧
    (0:ℚ) ≤ pW10.employer_contrib_pct + pW10.personal_contrib_pct ∧
    (-1:ℚ) ≤ pW10.investment_return ∧ (-1:ℚ) ≤ pW10.salary_growth ∧
    calculate_life_annuity_factor 115 Gender.Male (4/100) (emptyTable, emptyTable) = 0 ∧
    (∃ res, run_simulation pW10 (emptyTable, emptyTable) = SimOutcome.success res ∧
      res.nest_egg_needed = 0 ∧ res.shortfall ≤ 0) :=
  ⟨by decide, by decide, by decide,
    by with_unfolding_all decide, by with_unfolding_all decide,
    by with_unfolding_all decide, by with_unfolding_all decide,
    C10_horizon_zero.1 115 (by decide) Gender.Male (4/100) (emptyTable, emptyTable),
    C10_horizon_zero.2 pW10 (emptyTable, emptyTable) (by decide) (by decide)
      (by with_unfolding_all decide) (by with_unfolding_all decide)
      (by with_unfolding_all decide) (by with_unfolding_all decide)⟩
